import Mathlib

/-!
Verification of the fastops resource-stack composition and lifecycle engine.

Shallow embedding of `src/fastops/resources.py` (provisioning functions and the
stack composer) and `src/fastops/teardown.py` (destroy dispatch, resource-kind
classifier, destroy_stack, health prober).

Modelling conventions:
* Python dicts of environment variables are association lists `List (String × String)`;
  `dict.update` is modelled key-by-key with in-place overwrite of existing keys.
* Vendor CLI calls (`callaws` / `callaz` / `gcloud` subprocess) are oracles:
  a call either returns a value (the response field the code extracts) or raises,
  modelled as `Except String _` whose error carries the exception message
  (for `gcloud`, the captured stderr).
* Raising Python code is `Except String _`; code that cannot raise is total.
* Keyword arguments (`**kw`) are a record of optional fields; `os.environ` is an
  oracle `String → Option String`.
-/

namespace FastOps

/-- Python's substring test `sub in s`. -/
def strContains (s sub : String) : Bool :=
  decide (sub.toList <:+: s.toList)

/-- Python's `s.startswith(pre)` (executable model of `String.startsWith`). -/
def strStartsWith (s pre : String) : Bool :=
  pre.toList.isPrefixOf s.toList

/-- Environment fragment: ordered mapping from variable name to value. -/
abbrev EnvDict := List (String × String)

/-- Python `k in d` for an environment fragment. -/
def hasKey (d : EnvDict) (k : String) : Bool :=
  d.any (fun p => p.1 == k)

/-- Python dict assignment `d[k] = v`: overwrite in place if present, else append. -/
def updateOne (d : EnvDict) (k v : String) : EnvDict :=
  if hasKey d k then d.map (fun p => if p.1 == k then (k, v) else p)
  else d ++ [(k, v)]

/-- Python `d.update(e)`. -/
def updateEnv (d e : EnvDict) : EnvDict :=
  e.foldl (fun acc p => updateOne acc p.1 p.2) d

/-- Manifest fragment: the service dict a docker-provider provisioning function
returns (`image`, `command`, `env`, `ports`, `volumes`, `restart`; `deploy` is
`true` when the GPU reservation block of `llm` is attached). -/
structure Svc where
  image : String := ""
  command : String := ""
  env : List (String × String) := []
  ports : List (String × String) := []
  volumes : List (String × String) := []
  restart : String := ""
  deploy : Bool := false
deriving Repr, DecidableEq

/-- Per-resource destruction outcome dict. `resource`/`provider` are `none`
until `destroy` fills them with `setdefault`. -/
structure Outcome where
  destroyed : Bool
  message : String
  resource : Option String := none
  provider : Option String := none
deriving Repr, DecidableEq

/-- Oracle for the vendor CLI collaborators used by teardown and status:
`aws` models `callaws` (the returned string stands for the one response field
the caller extracts, e.g. `QueueUrl`), `az` models `callaz`, `gcloud` models a
checked `subprocess.run` of the gcloud CLI whose error carries stderr. -/
structure Cloud where
  aws : List String → Except String String
  az : List String → Except String String
  gcloud : List String → Except String String

/-- `result['DomainStatus']['Processing']` in the OpenSearch status probe is a
JSON boolean; this companion oracle models `callaws` calls whose extracted
field is a boolean. -/
abbrev CloudB := List String → Except String Bool

/-- Keyword arguments (`**kw`) threaded through provisioning and teardown. -/
structure Kw where
  password : Option String := none
  version : Option String := none
  instance_class : Option String := none
  username : Option String := none
  storage : Option Nat := none
  resource_group : Option String := none
  sku : Option String := none
  storage_size : Option Nat := none
  admin_user : Option String := none
  node_type : Option String := none
  vm_size : Option String := none
  «namespace» : Option String := none
  access_key : Option String := none
  secret_key : Option String := none
  region : Option String := none
  location : Option String := none
  account_name : Option String := none
  gpu : Bool := false
  deployment : Option String := none
  model_name : Option String := none
  model_version : Option String := none
  model_id : Option String := none
  capacity : Option Nat := none
  role : Option String := none
  zip_path : Option String := none
  timeout : Option Nat := none
  memory : Option Nat := none
  storage_account : Option String := none
  instance_type : Option String := none
  volume_size : Option Nat := none
  entry_point : Option String := none

/-- `os.environ` lookups. -/
abbrev OsEnv := String → Option String

/-- Oracle for vendor calls made by provisioning functions (never caught there,
and no claim exercises them): `aws args field` / `az args field` look up a field
of the parsed response of the call with arguments `args`; `az` models dict
`.get` (absent field possible); `gcloud args` is the captured stdout. -/
structure ProvCloud where
  aws : List String → String → String
  az : List String → String → Option String
  gcloud : List String → String

/-- Rendering of an optional Python argument into an opaque CLI argument
(`str(None) = 'None'`); the oracles never inspect arguments, so the rendering
is load-free. -/
def optStr : Option String → String
  | some s => s
  | none => "None"

/-- `name.replace('-', '').replace('_', '')[:24]` from the Azure storage
account-name default. -/
def _account_name_default (name : String) : String :=
  String.mk ((name.toList.filter (fun ch => !(ch == '-') && !(ch == '_'))).take 24)

/-- `resources.database`: provision a database (postgres, mysql or mongo). -/
def database (name engine provider : String) (kw : Kw) (osenv : OsEnv)
    (c : ProvCloud) : EnvDict × Option Svc :=
  let password := kw.password.getD ((osenv "DB_PASSWORD").getD "secret")
  if provider = "docker" then
    if engine = "postgres" then
      let version := kw.version.getD "16"
      ( [("DATABASE_URL", "postgresql://postgres:" ++ password ++ "@db:5432/" ++ name),
         ("DB_PROVIDER", "docker")],
        some { image := "postgres:" ++ version,
               env := [("POSTGRES_PASSWORD", password), ("POSTGRES_DB", name)],
               ports := [("5432", "5432")],
               volumes := [("pgdata", "/var/lib/postgresql/data")],
               restart := "unless-stopped" } )
    else if engine = "mysql" then
      let version := kw.version.getD "8"
      ( [("DATABASE_URL", "mysql://root:" ++ password ++ "@db:3306/" ++ name),
         ("DB_PROVIDER", "docker")],
        some { image := "mysql:" ++ version,
               env := [("MYSQL_ROOT_PASSWORD", password), ("MYSQL_DATABASE", name)],
               ports := [("3306", "3306")],
               volumes := [("mysqldata", "/var/lib/mysql")],
               restart := "unless-stopped" } )
    else if engine = "mongo" then
      let version := kw.version.getD "7"
      ( [("DATABASE_URL", "mongodb://admin:" ++ password ++ "@db:27017/" ++ name
            ++ "?authSource=admin"),
         ("DB_PROVIDER", "docker")],
        some { image := "mongo:" ++ version,
               env := [("MONGO_INITDB_ROOT_USERNAME", "admin"),
                       ("MONGO_INITDB_ROOT_PASSWORD", password)],
               ports := [("27017", "27017")],
               volumes := [("mongodata", "/data/db")],
               restart := "unless-stopped" } )
    else ([], none)
  else if provider = "aws" then
    let instance_class := kw.instance_class.getD "db.t3.micro"
    let username := kw.username.getD "appadmin"
    let storage := kw.storage.getD 20
    let resp := c.aws ["rds", "create-db-instance",
      "--db-instance-identifier", name, "--engine", engine,
      "--db-instance-class", instance_class, "--master-username", username,
      "--master-user-password", password, "--allocated-storage", toString storage,
      "--no-publicly-accessible", "--storage-encrypted"]
    let endpoint := resp "DBInstance.Endpoint.Address"
    let port := resp "DBInstance.Endpoint.Port"
    ( [("DATABASE_URL", "postgresql://" ++ username ++ ":" ++ password ++ "@"
          ++ endpoint ++ ":" ++ port ++ "/" ++ name),
       ("DB_PROVIDER", "rds")], none )
  else if provider = "azure" then
    let rg := optStr kw.resource_group
    let sku := kw.sku.getD "Standard_B1ms"
    let version := kw.version.getD "16"
    let storage_size := kw.storage_size.getD 32
    let admin_user := kw.admin_user.getD "appadmin"
    let resp := c.az ["postgres", "flexible-server", "create", "--name", name,
      "--resource-group", rg, "--sku-name", sku, "--version", version,
      "--storage-size", toString storage_size, "--admin-user", admin_user,
      "--admin-password", password, "--public-access", "None"]
    let host := (resp "fullyQualifiedDomainName").getD
      (name ++ ".postgres.database.azure.com")
    ( [("DATABASE_URL", "postgresql://" ++ admin_user ++ ":" ++ password ++ "@"
          ++ host ++ ":5432/" ++ name),
       ("DB_PROVIDER", "azure_postgres")], none )
  else ([], none)

/-- `resources.cache`: provision a Redis cache. -/
def cache (name provider : String) (kw : Kw) (c : ProvCloud) :
    EnvDict × Option Svc :=
  if provider = "docker" then
    let _password := kw.password.getD ""
    ( [("REDIS_URL", "redis://redis:6379"), ("CACHE_PROVIDER", "redis")],
      some { image := "redis:7-alpine",
             command := "redis-server --appendonly yes",
             ports := [("6379", "6379")],
             volumes := [("redis-data", "/data")],
             restart := "unless-stopped" } )
  else if provider = "aws" then
    let node_type := kw.node_type.getD "cache.t3.micro"
    let resp := c.aws ["elasticache", "create-cache-cluster",
      "--cache-cluster-id", name, "--cache-node-type", node_type,
      "--engine", "redis", "--num-cache-nodes", "1"]
    let endpoint := resp "CacheCluster.CacheNodes.0.Endpoint.Address"
    let port := resp "CacheCluster.CacheNodes.0.Endpoint.Port"
    ( [("REDIS_URL", "redis://" ++ endpoint ++ ":" ++ port),
       ("CACHE_PROVIDER", "elasticache")], none )
  else if provider = "azure" then
    let rg := optStr kw.resource_group
    let sku := kw.sku.getD "Basic"
    let vm_size := kw.vm_size.getD "C0"
    let resp := c.az ["redis", "create", "--name", name, "--resource-group", rg,
      "--sku", sku, "--vm-size", vm_size]
    let host := (resp "hostName").getD (name ++ ".redis.cache.windows.net")
    let keys := c.az ["redis", "list-keys", "--name", name, "--resource-group", rg]
    let key := (keys "primaryKey").getD ""
    ( [("REDIS_URL", "rediss://:" ++ key ++ "@" ++ host ++ ":6380"),
       ("CACHE_PROVIDER", "azure_redis")], none )
  else ([], none)

/-- `resources.queue`: provision a message queue. -/
def queue (name provider : String) (kw : Kw) (c : ProvCloud) :
    EnvDict × Option Svc :=
  if provider = "docker" then
    let password := kw.password.getD "guest"
    ( [("QUEUE_URL", "amqp://guest:" ++ password ++ "@rabbitmq:5672/"),
       ("QUEUE_NAME", name)],
      some { image := "rabbitmq:3-management",
             env := [("RABBITMQ_DEFAULT_USER", "guest"),
                     ("RABBITMQ_DEFAULT_PASS", password)],
             ports := [("5672", "5672"), ("15672", "15672")],
             volumes := [("rabbitmq-data", "/var/lib/rabbitmq")],
             restart := "unless-stopped" } )
  else if provider = "aws" then
    -- the json.dumps attribute payload is passed as one opaque argument
    let resp := c.aws ["sqs", "create-queue", "--queue-name", name,
      "--attributes", "VisibilityTimeout=30;MessageRetentionPeriod=345600"]
    ( [("QUEUE_URL", resp "QueueUrl"), ("QUEUE_NAME", name),
       ("QUEUE_PROVIDER", "sqs")], none )
  else if provider = "azure" then
    let rg := optStr kw.resource_group
    let ns := kw.«namespace».getD (name ++ "-ns")
    let _create_ns := c.az ["servicebus", "namespace", "create", "--name", ns,
      "--resource-group", rg]
    let _create_q := c.az ["servicebus", "queue", "create", "--name", name,
      "--namespace-name", ns, "--resource-group", rg]
    let keys := c.az ["servicebus", "namespace", "authorization-rule", "keys",
      "list", "--name", "RootManageSharedAccessKey", "--namespace-name", ns,
      "--resource-group", rg]
    ( [("QUEUE_URL", (keys "primaryConnectionString").getD ""),
       ("QUEUE_NAME", name), ("QUEUE_PROVIDER", "servicebus")], none )
  else if provider = "gcp" then
    let _topic := c.gcloud ["pubsub", "topics", "create", name]
    let sub_name := name ++ "-sub"
    let _sub := c.gcloud ["pubsub", "subscriptions", "create", sub_name,
      "--topic", name]
    ( [("QUEUE_TOPIC", name), ("QUEUE_SUBSCRIPTION", sub_name),
       ("QUEUE_PROVIDER", "pubsub")], none )
  else ([], none)

/-- `resources.bucket`: provision object storage. -/
def bucket (name provider : String) (kw : Kw) (c : ProvCloud) :
    EnvDict × Option Svc :=
  if provider = "docker" then
    let access_key := kw.access_key.getD "minioadmin"
    let secret_key := kw.secret_key.getD "minioadmin"
    ( [("S3_ENDPOINT", "http://minio:9000"), ("S3_BUCKET", name),
       ("S3_ACCESS_KEY", access_key), ("S3_SECRET_KEY", secret_key)],
      some { image := "minio/minio:latest",
             command := "server /data --console-address \":9001\"",
             env := [("MINIO_ROOT_USER", access_key),
                     ("MINIO_ROOT_PASSWORD", secret_key)],
             ports := [("9000", "9000"), ("9001", "9001")],
             volumes := [("minio-data", "/data")],
             restart := "unless-stopped" } )
  else if provider = "aws" then
    let region := kw.region.getD "us-east-1"
    let _create :=
      if region = "us-east-1" then
        c.aws ["s3api", "create-bucket", "--bucket", name]
      else
        c.aws ["s3api", "create-bucket", "--bucket", name,
          "--create-bucket-configuration", "LocationConstraint=" ++ region]
    -- the two json.dumps policy payloads are passed as opaque arguments
    let _enc := c.aws ["s3api", "put-bucket-encryption", "--bucket", name,
      "--server-side-encryption-configuration", "SSEAlgorithm=AES256"]
    let _block := c.aws ["s3api", "put-public-access-block", "--bucket", name,
      "--public-access-block-configuration",
      "BlockPublicAcls=true,IgnorePublicAcls=true,BlockPublicPolicy=true,RestrictPublicBuckets=true"]
    ( [("S3_BUCKET", name), ("S3_REGION", region),
       ("STORAGE_PROVIDER", "aws")], none )
  else if provider = "azure" then
    let rg := optStr kw.resource_group
    let account_name := kw.account_name.getD (_account_name_default name)
    let _acct := c.az ["storage", "account", "create", "--name", account_name,
      "--resource-group", rg, "--encryption-services", "blob",
      "--min-tls-version", "TLS1_2"]
    let _cont := c.az ["storage", "container", "create", "--name", name,
      "--account-name", account_name]
    let keys := c.az ["storage", "account", "show-connection-string",
      "--name", account_name, "--resource-group", rg]
    ( [("AZURE_STORAGE_CONNECTION_STRING", (keys "connectionString").getD ""),
       ("AZURE_STORAGE_CONTAINER", name), ("STORAGE_PROVIDER", "azure")], none )
  else if provider = "gcp" then
    let location := kw.location.getD "us"
    let _create := c.gcloud ["storage", "buckets", "create", "gs://" ++ name,
      "--location", location, "--uniform-bucket-level-access"]
    ( [("GCS_BUCKET", name), ("STORAGE_PROVIDER", "gcp")], none )
  else ([], none)

/-- `resources.llm`: provision an LLM endpoint. -/
def llm (name provider : String) (kw : Kw) (osenv : OsEnv) (c : ProvCloud) :
    EnvDict × Option Svc :=
  if provider = "docker" then
    let base : Svc :=
      { image := "ollama/ollama:latest",
        ports := [("11434", "11434")],
        volumes := [("ollama-data", "/root/.ollama")],
        restart := "unless-stopped" }
    let svc := if kw.gpu then { base with deploy := true } else base
    ( [("LLM_ENDPOINT", "http://ollama:11434"), ("LLM_MODEL", name),
       ("LLM_PROVIDER", "ollama")], some svc )
  else if provider = "openai" then
    let api_key := (osenv "OPENAI_API_KEY").getD "${OPENAI_API_KEY}"
    ( [("LLM_ENDPOINT", "https://api.openai.com/v1"), ("LLM_MODEL", name),
       ("LLM_PROVIDER", "openai"), ("OPENAI_API_KEY", api_key)], none )
  else if provider = "azure" then
    let rg := optStr kw.resource_group
    let location := kw.location.getD "eastus"
    let _acct := c.az ["cognitiveservices", "account", "create", "--name", name,
      "--resource-group", rg, "--kind", "OpenAI", "--sku", "S0",
      "--location", location]
    let deployment_name := kw.deployment.getD (name ++ "-deployment")
    let model_name := kw.model_name.getD "gpt-4"
    let _deploy := c.az ["cognitiveservices", "account", "deployment", "create",
      "--name", name, "--resource-group", rg,
      "--deployment-name", deployment_name, "--model-name", model_name,
      "--model-version", kw.model_version.getD "0613", "--model-format", "OpenAI",
      "--sku-capacity", toString (kw.capacity.getD 1), "--sku-name", "Standard"]
    let account := c.az ["cognitiveservices", "account", "show", "--name", name,
      "--resource-group", rg]
    let endpoint := (account "properties.endpoint").getD ""
    let keys := c.az ["cognitiveservices", "account", "keys", "list",
      "--name", name, "--resource-group", rg]
    ( [("LLM_ENDPOINT", endpoint), ("LLM_MODEL", model_name),
       ("LLM_PROVIDER", "azure_openai"),
       ("AZURE_OPENAI_API_KEY", (keys "key1").getD ""),
       ("AZURE_OPENAI_DEPLOYMENT", deployment_name)], none )
  else if provider = "aws" then
    let model_id := kw.model_id.getD ("anthropic." ++ name)
    let region := kw.region.getD "us-east-1"
    ( [("LLM_MODEL", model_id), ("LLM_PROVIDER", "bedrock"),
       ("AWS_REGION", region)], none )
  else ([], none)

/-- `line.split(':', 1)[1].strip()` applied to the last stdout line that
case-insensitively contains `url:` (the gcloud deploy output scan). -/
def _function_url_from_output (output : String) : String :=
  (output.splitOn "\n").foldl
    (fun url line =>
      if strContains line.toLower "url:" then
        (String.intercalate ":" ((line.splitOn ":").drop 1)).trim
      else url) ""

/-- `resources.function`: provision a serverless function. -/
def function (name runtime handler provider : String) (kw : Kw) (osenv : OsEnv)
    (c : ProvCloud) : EnvDict × Option Svc :=
  if provider = "aws" then
    let role := optStr (kw.role <|> osenv "LAMBDA_ROLE_ARN")
    let zip_path := kw.zip_path.getD "function.zip"
    let timeout := kw.timeout.getD 30
    let memory := kw.memory.getD 256
    let resp := c.aws ["lambda", "create-function", "--function-name", name,
      "--runtime", runtime, "--handler", handler, "--role", role,
      "--zip-file", "fileb://" ++ zip_path, "--timeout", toString timeout,
      "--memory-size", toString memory]
    ( [("FUNCTION_ARN", resp "FunctionArn"), ("FUNCTION_NAME", name),
       ("FUNCTION_PROVIDER", "lambda")], none )
  else if provider = "azure" then
    let rg := optStr kw.resource_group
    let location := kw.location.getD "eastus"
    let storage_account := kw.storage_account.getD (name ++ "storage")
    let _acct := c.az ["storage", "account", "create", "--name", storage_account,
      "--resource-group", rg, "--location", location]
    let _app := c.az ["functionapp", "create", "--name", name,
      "--resource-group", rg, "--consumption-plan-location", location,
      "--runtime", "python",
      "--runtime-version", String.intercalate "" (runtime.splitOn "python"),
      "--storage-account", storage_account, "--os-type", "Linux"]
    ( [("FUNCTION_URL", "https://" ++ name ++ ".azurewebsites.net"),
       ("FUNCTION_NAME", name), ("FUNCTION_PROVIDER", "azure_functions")], none )
  else if provider = "gcp" then
    let region := kw.region.getD "us-central1"
    let entry_point := kw.entry_point.getD ((handler.splitOn ".").getLastD "")
    let out := c.gcloud ["functions", "deploy", name, "--runtime", runtime,
      "--trigger-http", "--allow-unauthenticated", "--entry-point", entry_point,
      "--region", region]
    let url := _function_url_from_output out
    ( [("FUNCTION_URL", url), ("FUNCTION_NAME", name),
       ("FUNCTION_PROVIDER", "gcp_functions")], none )
  else ([], none)

/-- `resources.search`: provision a search engine. -/
def search (name provider : String) (kw : Kw) (c : ProvCloud) :
    EnvDict × Option Svc :=
  if provider = "docker" then
    ( [("SEARCH_URL", "http://elasticsearch:9200"),
       ("SEARCH_PROVIDER", "elasticsearch")],
      some { image := "elasticsearch:8.12.0",
             env := [("discovery.type", "single-node"),
                     ("xpack.security.enabled", "false"),
                     ("ES_JAVA_OPTS", "-Xms512m -Xmx512m")],
             ports := [("9200", "9200")],
             volumes := [("es-data", "/usr/share/elasticsearch/data")],
             restart := "unless-stopped" } )
  else if provider = "aws" then
    let instance_type := kw.instance_type.getD "t3.small.search"
    let volume_size := kw.volume_size.getD 20
    -- the two json.dumps config payloads are passed as opaque arguments
    let resp := c.aws ["opensearch", "create-domain", "--domain-name", name,
      "--engine-version", "OpenSearch_2.11",
      "--cluster-config", "InstanceType=" ++ instance_type ++ ",InstanceCount=1",
      "--ebs-options", "EBSEnabled=true,VolumeType=gp3,VolumeSize="
        ++ toString volume_size]
    let endpoint := resp "DomainStatus.Endpoint"
    ( [("SEARCH_URL", "https://" ++ endpoint),
       ("SEARCH_PROVIDER", "opensearch")], none )
  else if provider = "azure" then
    let rg := optStr kw.resource_group
    let sku := kw.sku.getD "basic"
    let _svc := c.az ["search", "service", "create", "--name", name,
      "--resource-group", rg, "--sku", sku]
    let keys := c.az ["search", "admin-key", "show", "--service-name", name,
      "--resource-group", rg]
    ( [("SEARCH_URL", "https://" ++ name ++ ".search.windows.net"),
       ("SEARCH_API_KEY", (keys "primaryKey").getD ""),
       ("SEARCH_PROVIDER", "azure_search")], none )
  else ([], none)

/-- Modelled from the spec: the compose-model collaborator (`fastops/compose.py`
is not in the source tree; only `from .compose import Compose` and its use as a
manifest sink are). Per the spec it "accepts named service fragments plus
volumes/networks", with manifest fragments "keyed by resource name; duplicate
names overwrite". -/
structure Compose where
  services : List (String × Svc) := []
  volumes : List String := []
deriving Repr, DecidableEq

/-- Modelled from the spec: `Compose.svc` records a named service fragment,
overwriting an existing fragment of the same name. -/
def Compose.svc (dc : Compose) (name : String) (s : Svc) : Compose :=
  if dc.services.any (fun p => p.1 == name) then
    { dc with services := dc.services.map (fun p => if p.1 == name then (name, s) else p) }
  else
    { dc with services := dc.services ++ [(name, s)] }

/-- Modelled from the spec: `Compose.volume` declares a named volume at the
stack level. -/
def Compose.volume (dc : Compose) (v : String) : Compose :=
  { dc with volumes := dc.volumes ++ [v] }

/-- A resource record entry: the named provisioning thunk, modelled by the
(environment fragment, manifest fragment) pair the thunk returns. -/
abbrev ResourceRecord := List (String × (EnvDict × Option Svc))

/-- One iteration of the `stack` loop body over the accumulated
(merged_env, dc, volumes) triple. -/
def _stack_step (acc : EnvDict × Compose × List String)
    (p : String × (EnvDict × Option Svc)) : EnvDict × Compose × List String :=
  let merged := updateEnv acc.1 p.2.1
  match p.2.2 with
  | none => (merged, acc.2.1, acc.2.2)
  | some s =>
      let dc := acc.2.1.svc p.1 s
      -- skip bind mounts (volume keys starting with . or /)
      let vols := acc.2.2 ++ (s.volumes.map Prod.fst).filter
        (fun k => !(strStartsWith k ".") && !(strStartsWith k "/"))
      (merged, dc, vols)

/-- `resources.stack`: compose multiple resources into a unified stack.
Python's `set(volumes)` has unspecified iteration order; the deduplicated
volume collection is modelled with `List.dedup` (set claims below are stated
via membership). -/
def stack (resources : ResourceRecord) :
    EnvDict × Compose × List String :=
  let r := resources.foldl _stack_step ([], {}, [])
  let vols := r.2.2.dedup
  (r.1, vols.foldl Compose.volume r.2.1, vols)

/-- `teardown._destroy_database`: destroy a database instance. -/
def _destroy_database (name provider : String) (c : Cloud) (kw : Kw) :
    Except String Outcome :=
  if provider = "docker" then
    .ok { destroyed := true, message := "Remove via docker compose down -v" }
  else if provider = "aws" then
    match c.aws ["rds", "delete-db-instance", "--db-instance-identifier", name,
        "--skip-final-snapshot", "--delete-automated-backups"] with
    | .error e =>
        if strContains e "DBInstanceNotFound" then
          .ok { destroyed := false, message := "RDS instance " ++ name ++ " not found" }
        else .error e
    | .ok _ =>
        .ok { destroyed := true,
              message := "RDS instance " ++ name ++ " deletion initiated" }
  else if provider = "azure" then
    let rg := optStr kw.resource_group
    match c.az ["postgres", "flexible-server", "delete", "--name", name,
        "--resource-group", rg, "--yes"] with
    | .error e =>
        if strContains e "ResourceNotFound" then
          .ok { destroyed := false, message := "Azure DB " ++ name ++ " not found" }
        else .error e
    | .ok _ =>
        .ok { destroyed := true, message := "Azure Postgres " ++ name ++ " deleted" }
  else
    .ok { destroyed := false, message := "Unsupported provider: " ++ provider }

/-- `teardown._destroy_cache`: destroy a cache instance. -/
def _destroy_cache (name provider : String) (c : Cloud) (kw : Kw) :
    Except String Outcome :=
  if provider = "docker" then
    .ok { destroyed := true, message := "Remove via docker compose down -v" }
  else if provider = "aws" then
    match c.aws ["elasticache", "delete-cache-cluster",
        "--cache-cluster-id", name] with
    | .error e =>
        if strContains e "CacheClusterNotFound" then
          .ok { destroyed := false,
                message := "ElastiCache cluster " ++ name ++ " not found" }
        else .error e
    | .ok _ =>
        .ok { destroyed := true,
              message := "ElastiCache cluster " ++ name ++ " deletion initiated" }
  else if provider = "azure" then
    let rg := optStr kw.resource_group
    match c.az ["redis", "delete", "--name", name, "--resource-group", rg,
        "--yes"] with
    | .error e =>
        if strContains e "ResourceNotFound" then
          .ok { destroyed := false, message := "Azure Redis " ++ name ++ " not found" }
        else .error e
    | .ok _ =>
        .ok { destroyed := true, message := "Azure Redis " ++ name ++ " deleted" }
  else
    .ok { destroyed := false, message := "Unsupported provider: " ++ provider }

/-- `teardown._destroy_queue`: destroy a message queue. -/
def _destroy_queue (name provider : String) (c : Cloud) (kw : Kw) :
    Except String Outcome :=
  if provider = "docker" then
    .ok { destroyed := true, message := "Remove via docker compose down -v" }
  else if provider = "aws" then
    -- get the queue URL first, then delete; both calls share one handler
    match (c.aws ["sqs", "get-queue-url", "--queue-name", name]).bind
        (fun url => c.aws ["sqs", "delete-queue", "--queue-url", url]) with
    | .error e =>
        if strContains e "NonExistentQueue" || strContains e "QueueDoesNotExist" then
          .ok { destroyed := false, message := "SQS queue " ++ name ++ " not found" }
        else .error e
    | .ok _ =>
        .ok { destroyed := true, message := "SQS queue " ++ name ++ " deleted" }
  else if provider = "azure" then
    let rg := optStr kw.resource_group
    let ns := kw.«namespace».getD (name ++ "-ns")
    match c.az ["servicebus", "namespace", "delete", "--name", ns,
        "--resource-group", rg, "--yes"] with
    | .error e =>
        if strContains e "ResourceNotFound" then
          .ok { destroyed := false,
                message := "Azure ServiceBus namespace " ++ ns ++ " not found" }
        else .error e
    | .ok _ =>
        .ok { destroyed := true,
              message := "Azure ServiceBus namespace " ++ ns ++ " deleted" }
  else if provider = "gcp" then
    -- delete subscription first, then topic; both calls share one handler
    let sub_name := name ++ "-sub"
    match (c.gcloud ["pubsub", "subscriptions", "delete", sub_name,
        "--quiet"]).bind
        (fun _ => c.gcloud ["pubsub", "topics", "delete", name, "--quiet"]) with
    | .error e =>
        if strContains e "NOT_FOUND" || strContains e.toLower "does not exist" then
          .ok { destroyed := false,
                message := "GCP Pub/Sub topic " ++ name ++ " not found" }
        else .error e
    | .ok _ =>
        .ok { destroyed := true,
              message := "GCP Pub/Sub topic " ++ name ++ " deleted" }
  else
    .ok { destroyed := false, message := "Unsupported provider: " ++ provider }

/-- `teardown._destroy_bucket`: destroy an object storage bucket. -/
def _destroy_bucket (name provider : String) (c : Cloud) (kw : Kw) :
    Except String Outcome :=
  if provider = "docker" then
    .ok { destroyed := true, message := "Remove via docker compose down -v" }
  else if provider = "aws" then
    -- empty the bucket first, then delete; both calls share one handler
    match (c.aws ["s3", "rm", "s3://" ++ name, "--recursive"]).bind
        (fun _ => c.aws ["s3api", "delete-bucket", "--bucket", name]) with
    | .error e =>
        if strContains e "NoSuchBucket" then
          .ok { destroyed := false, message := "S3 bucket " ++ name ++ " not found" }
        else .error e
    | .ok _ =>
        .ok { destroyed := true, message := "S3 bucket " ++ name ++ " deleted" }
  else if provider = "azure" then
    let rg := optStr kw.resource_group
    let account_name := kw.account_name.getD (_account_name_default name)
    match (c.az ["storage", "container", "delete", "--name", name,
        "--account-name", account_name, "--yes"]).bind
        (fun _ => c.az ["storage", "account", "delete", "--name", account_name,
          "--resource-group", rg, "--yes"]) with
    | .error e =>
        if strContains e "ResourceNotFound" || strContains e "NotFound" then
          .ok { destroyed := false, message := "Azure storage " ++ name ++ " not found" }
        else .error e
    | .ok _ =>
        .ok { destroyed := true,
              message := "Azure storage account " ++ account_name ++ " deleted" }
  else if provider = "gcp" then
    match c.gcloud ["storage", "rm", "-r", "gs://" ++ name, "--quiet"] with
    | .error e =>
        if strContains e "NOT_FOUND" || strContains e.toLower "does not exist" then
          .ok { destroyed := false, message := "GCS bucket " ++ name ++ " not found" }
        else .error e
    | .ok _ =>
        .ok { destroyed := true, message := "GCS bucket " ++ name ++ " deleted" }
  else
    .ok { destroyed := false, message := "Unsupported provider: " ++ provider }

/-- `teardown._destroy_llm`: destroy an LLM endpoint. -/
def _destroy_llm (name provider : String) (c : Cloud) (kw : Kw) :
    Except String Outcome :=
  if provider = "docker" then
    .ok { destroyed := true, message := "Remove via docker compose down -v" }
  else if provider = "openai" then
    .ok { destroyed := true, message := "No teardown needed for OpenAI" }
  else if provider = "azure" then
    let rg := optStr kw.resource_group
    let deployment_name := kw.deployment.getD (name ++ "-deployment")
    -- delete the model deployment first, then the account; one shared handler
    match (c.az ["cognitiveservices", "account", "deployment", "delete",
        "--name", name, "--resource-group", rg,
        "--deployment-name", deployment_name]).bind
        (fun _ => c.az ["cognitiveservices", "account", "delete", "--name", name,
          "--resource-group", rg]) with
    | .error e =>
        if strContains e "ResourceNotFound" then
          .ok { destroyed := false, message := "Azure OpenAI " ++ name ++ " not found" }
        else .error e
    | .ok _ =>
        .ok { destroyed := true,
              message := "Azure OpenAI account " ++ name ++ " deleted" }
  else if provider = "aws" then
    .ok { destroyed := true, message := "No teardown needed for Bedrock" }
  else
    .ok { destroyed := false, message := "Unsupported provider: " ++ provider }

/-- `teardown._destroy_search`: destroy a search engine. -/
def _destroy_search (name provider : String) (c : Cloud) (kw : Kw) :
    Except String Outcome :=
  if provider = "docker" then
    .ok { destroyed := true, message := "Remove via docker compose down -v" }
  else if provider = "aws" then
    match c.aws ["opensearch", "delete-domain", "--domain-name", name] with
    | .error e =>
        if strContains e "ResourceNotFoundException" then
          .ok { destroyed := false,
                message := "OpenSearch domain " ++ name ++ " not found" }
        else .error e
    | .ok _ =>
        .ok { destroyed := true,
              message := "OpenSearch domain " ++ name ++ " deletion initiated" }
  else if provider = "azure" then
    let rg := optStr kw.resource_group
    match c.az ["search", "service", "delete", "--name", name,
        "--resource-group", rg, "--yes"] with
    | .error e =>
        if strContains e "ResourceNotFound" then
          .ok { destroyed := false, message := "Azure Search " ++ name ++ " not found" }
        else .error e
    | .ok _ =>
        .ok { destroyed := true, message := "Azure Search " ++ name ++ " deleted" }
  else
    .ok { destroyed := false, message := "Unsupported provider: " ++ provider }

/-- `teardown._destroy_function`: destroy a serverless function (note: no
docker branch exists in the source). -/
def _destroy_function (name provider : String) (c : Cloud) (kw : Kw) :
    Except String Outcome :=
  if provider = "aws" then
    match c.aws ["lambda", "delete-function", "--function-name", name] with
    | .error e =>
        if strContains e "ResourceNotFoundException" then
          .ok { destroyed := false,
                message := "Lambda function " ++ name ++ " not found" }
        else .error e
    | .ok _ =>
        .ok { destroyed := true, message := "Lambda function " ++ name ++ " deleted" }
  else if provider = "azure" then
    let rg := optStr kw.resource_group
    match c.az ["functionapp", "delete", "--name", name,
        "--resource-group", rg, "--yes"] with
    | .error e =>
        if strContains e "ResourceNotFound" then
          .ok { destroyed := false, message := "Azure Function " ++ name ++ " not found" }
        else .error e
    | .ok _ =>
        .ok { destroyed := true, message := "Azure Function " ++ name ++ " deleted" }
  else if provider = "gcp" then
    let region := kw.region.getD "us-central1"
    match c.gcloud ["functions", "delete", name, "--quiet",
        "--region", region] with
    | .error e =>
        if strContains e "NOT_FOUND" || strContains e.toLower "does not exist" then
          .ok { destroyed := false, message := "GCP function " ++ name ++ " not found" }
        else .error e
    | .ok _ =>
        .ok { destroyed := true, message := "GCP function " ++ name ++ " deleted" }
  else
    .ok { destroyed := false, message := "Unsupported provider: " ++ provider }

/-- `teardown._infer_resource_type`: infer the resource kind from the
environment fragment by key presence. -/
def _infer_resource_type (env_dict : EnvDict) : String :=
  if hasKey env_dict "DATABASE_URL" then "database"
  else if hasKey env_dict "REDIS_URL" then "cache"
  else if hasKey env_dict "QUEUE_URL" || hasKey env_dict "QUEUE_TOPIC" then "queue"
  else if (["S3_ENDPOINT", "S3_BUCKET", "AZURE_STORAGE_CONNECTION_STRING",
      "GCS_BUCKET"] : List String).any (hasKey env_dict) then "bucket"
  else if hasKey env_dict "LLM_ENDPOINT" || hasKey env_dict "LLM_MODEL" then "llm"
  else if hasKey env_dict "SEARCH_URL" then "search"
  else if hasKey env_dict "FUNCTION_ARN" || hasKey env_dict "FUNCTION_URL" then
    "function"
  else "unknown"

/-- The `dispatchers` table of `teardown.destroy`. -/
def _dispatch : String →
    Option (String → String → Cloud → Kw → Except String Outcome)
  | "database" => some _destroy_database
  | "cache" => some _destroy_cache
  | "queue" => some _destroy_queue
  | "bucket" => some _destroy_bucket
  | "llm" => some _destroy_llm
  | "search" => some _destroy_search
  | "function" => some _destroy_function
  | _ => none

/-- `teardown.destroy`: destroy a single provisioned resource, filling
`resource`/`provider` into the outcome with `setdefault`. -/
def destroy (resource_type name provider : String) (c : Cloud) (kw : Kw) :
    Except String Outcome :=
  match _dispatch resource_type with
  | none =>
      .ok { destroyed := false, resource := some name, provider := some provider,
            message := "Unknown resource type: " ++ resource_type }
  | some f =>
      match f name provider c kw with
      | .error e => .error e
      | .ok r =>
          .ok { r with resource := some (r.resource.getD name),
                       provider := some (r.provider.getD provider) }

/-- The loop body of `teardown.destroy_stack`, recursing over the already
reversed key list: re-read each entry's environment fragment, infer its kind,
destroy it, and record the outcome under its name (in visit order). -/
def _destroy_each (provider : String) (c : Cloud) (kw : Kw) :
    List (String × (EnvDict × Option Svc)) →
    Except String (List (String × Outcome))
  | [] => .ok []
  | (name, fn) :: rest =>
      match destroy (_infer_resource_type fn.1) name provider c kw with
      | .error e => .error e
      | .ok r =>
          match _destroy_each provider c kw rest with
          | .error e => .error e
          | .ok rs => .ok ((name, r) :: rs)

/-- `teardown.destroy_stack`: tear down all resources of a record in reverse
insertion order. -/
def destroy_stack (resources : ResourceRecord) (provider : String) (c : Cloud)
    (kw : Kw) : Except String (List (String × Outcome)) :=
  _destroy_each provider c kw resources.reverse

/-- Health-probe result dict of `teardown.status`. -/
structure Status where
  healthy : Bool
  provider : String
  name : String
  status : Option String := none
  state : Option String := none
  processing : Option Bool := none
  message : Option String := none
deriving Repr, DecidableEq

/-- Oracle for `subprocess.run(['docker', 'inspect', ...])` without `check`:
(returncode, stdout); it cannot raise. -/
abbrev DockerInspect := String → Nat × String

/-- The `try` body of the aws branch of `teardown.status`. The oracle's `ok`
value is the status field the code extracts (e.g.
`result['DBInstances'][0]['DBInstanceStatus']`); the boolean
`result['DomainStatus']['Processing']` comes through the boolean oracle.
`.ok none` models the body completing without `return` (unhandled kind). -/
def _status_aws_try (resource_type name : String) (c : Cloud) (cb : CloudB) :
    Except String (Option Status) :=
  if resource_type = "database" then
    match c.aws ["rds", "describe-db-instances",
        "--db-instance-identifier", name] with
    | .error e => .error e
    | .ok status_val =>
        .ok (some { healthy := status_val == "available", provider := "aws",
                    name := name, status := some status_val })
  else if resource_type = "cache" then
    match c.aws ["elasticache", "describe-cache-clusters",
        "--cache-cluster-id", name] with
    | .error e => .error e
    | .ok status_val =>
        .ok (some { healthy := status_val == "available", provider := "aws",
                    name := name, status := some status_val })
  else if resource_type = "bucket" then
    match c.aws ["s3api", "head-bucket", "--bucket", name] with
    | .error e => .error e
    | .ok _ => .ok (some { healthy := true, provider := "aws", name := name })
  else if resource_type = "search" then
    match cb ["opensearch", "describe-domain", "--domain-name", name] with
    | .error e => .error e
    | .ok status_val =>
        .ok (some { healthy := !status_val, provider := "aws", name := name,
                    processing := some status_val })
  else if resource_type = "function" then
    match c.aws ["lambda", "get-function", "--function-name", name] with
    | .error e => .error e
    | .ok state =>
        .ok (some { healthy := state == "Active", provider := "aws",
                    name := name, state := some state })
  else .ok none

/-- The `try` body of the azure branch of `teardown.status`. The oracle's `ok`
value is the `.get`-extracted field with its `''` default already applied. -/
def _status_azure_try (resource_type name : String) (c : Cloud) (kw : Kw) :
    Except String (Option Status) :=
  let rg := optStr kw.resource_group
  if resource_type = "database" then
    match c.az ["postgres", "flexible-server", "show", "--name", name,
        "--resource-group", rg] with
    | .error e => .error e
    | .ok state =>
        .ok (some { healthy := state == "Ready", provider := "azure",
                    name := name, state := some state })
  else if resource_type = "cache" then
    match c.az ["redis", "show", "--name", name, "--resource-group", rg] with
    | .error e => .error e
    | .ok status_val =>
        .ok (some { healthy := status_val == "Succeeded", provider := "azure",
                    name := name, status := some status_val })
  else if resource_type = "search" then
    match c.az ["search", "service", "show", "--name", name,
        "--resource-group", rg] with
    | .error e => .error e
    | .ok status_val =>
        .ok (some { healthy := status_val == "Succeeded", provider := "azure",
                    name := name, status := some status_val })
  else if resource_type = "function" then
    match c.az ["functionapp", "show", "--name", name,
        "--resource-group", rg] with
    | .error e => .error e
    | .ok state =>
        .ok (some { healthy := state == "Running", provider := "azure",
                    name := name, state := some state })
  else .ok none

/-- `teardown.status`: quick health check for a provisioned resource. Every
vendor call sits inside a `try` whose handler returns a `healthy: false`
outcome. -/
def status (resource_type name provider : String) (c : Cloud) (cb : CloudB)
    (d : DockerInspect) (kw : Kw) : Except String Status :=
  if provider = "docker" then
    let r := d name
    let running := r.1 == 0 && strContains r.2 "running"
    .ok { healthy := running, provider := "docker", name := name }
  else if provider = "aws" then
    match _status_aws_try resource_type name c cb with
    | .error e =>
        .ok { healthy := false, provider := "aws", name := name,
              message := some ("Resource not found or error: " ++ e) }
    | .ok (some s) => .ok s
    | .ok none =>
        .ok { healthy := false, provider := provider, name := name,
              message := some "Unsupported provider or resource type" }
  else if provider = "azure" then
    match _status_azure_try resource_type name c kw with
    | .error e =>
        .ok { healthy := false, provider := "azure", name := name,
              message := some ("Resource not found or error: " ++ e) }
    | .ok (some s) => .ok s
    | .ok none =>
        .ok { healthy := false, provider := provider, name := name,
              message := some "Unsupported provider or resource type" }
  else
    .ok { healthy := false, provider := provider, name := name,
          message := some "Unsupported provider or resource type" }

/-! ### Spec-side comparison definitions and test fixtures -/

/-- First-match-wins evaluation of an ordered predicate list, defaulting to
`unknown` — the spec's description of the classifier's fixed total order. -/
def firstMatch : List ((EnvDict → Bool) × String) → EnvDict → String
  | [], _ => "unknown"
  | (p, k) :: rest, e => if p e then k else firstMatch rest e

/-- The spec's classifier predicate list, in its fixed precedence order
database > cache > queue > bucket > llm > search > function. -/
def _spec_predicates : List ((EnvDict → Bool) × String) :=
  [ (fun e => hasKey e "DATABASE_URL", "database"),
    (fun e => hasKey e "REDIS_URL", "cache"),
    (fun e => hasKey e "QUEUE_URL" || hasKey e "QUEUE_TOPIC", "queue"),
    (fun e => hasKey e "S3_ENDPOINT" || hasKey e "S3_BUCKET"
        || hasKey e "AZURE_STORAGE_CONNECTION_STRING" || hasKey e "GCS_BUCKET",
      "bucket"),
    (fun e => hasKey e "LLM_ENDPOINT" || hasKey e "LLM_MODEL", "llm"),
    (fun e => hasKey e "SEARCH_URL", "search"),
    (fun e => hasKey e "FUNCTION_ARN" || hasKey e "FUNCTION_URL", "function") ]

/-- The (kind, provider) pairs whose destroy operation issues at least one
vendor delete call (docker is a no-op; llm on openai/aws needs no teardown). -/
def _delete_call_pairs : List (String × String) :=
  [("database", "aws"), ("database", "azure"),
   ("cache", "aws"), ("cache", "azure"),
   ("queue", "aws"), ("queue", "azure"), ("queue", "gcp"),
   ("bucket", "aws"), ("bucket", "azure"), ("bucket", "gcp"),
   ("llm", "azure"),
   ("search", "aws"), ("search", "azure"),
   ("function", "aws"), ("function", "azure"), ("function", "gcp")]

/-- The vendor's fixed not-found check for the first delete call of each
(kind, provider) pair, exactly as each handler tests it. -/
def _not_found_marker (rt provider e : String) : Bool :=
  if rt = "database" then
    if provider = "aws" then strContains e "DBInstanceNotFound"
    else strContains e "ResourceNotFound"
  else if rt = "cache" then
    if provider = "aws" then strContains e "CacheClusterNotFound"
    else strContains e "ResourceNotFound"
  else if rt = "queue" then
    if provider = "aws" then
      strContains e "NonExistentQueue" || strContains e "QueueDoesNotExist"
    else if provider = "azure" then strContains e "ResourceNotFound"
    else strContains e "NOT_FOUND" || strContains e.toLower "does not exist"
  else if rt = "bucket" then
    if provider = "aws" then strContains e "NoSuchBucket"
    else if provider = "azure" then
      strContains e "ResourceNotFound" || strContains e "NotFound"
    else strContains e "NOT_FOUND" || strContains e.toLower "does not exist"
  else if rt = "llm" then strContains e "ResourceNotFound"
  else if rt = "search" then
    if provider = "aws" then strContains e "ResourceNotFoundException"
    else strContains e "ResourceNotFound"
  else if rt = "function" then
    if provider = "aws" then strContains e "ResourceNotFoundException"
    else if provider = "azure" then strContains e "ResourceNotFound"
    else strContains e "NOT_FOUND" || strContains e.toLower "does not exist"
  else false

/-- An oracle whose every vendor call raises with message `e`. -/
def constErrCloud (e : String) : Cloud :=
  { aws := fun _ => .error e, az := fun _ => .error e, gcloud := fun _ => .error e }

/-- "The resource this aws call operates on is already absent": the call
raises, and its message carries the not-found marker the corresponding destroy
handler tests for (keyed like the source on the aws service name). -/
def _aws_call_gone (c : Cloud) (args : List String) : Prop :=
  if args.head? = some "rds" then
    ∃ e, c.aws args = .error e ∧ strContains e "DBInstanceNotFound" = true
  else if args.head? = some "elasticache" then
    ∃ e, c.aws args = .error e ∧ strContains e "CacheClusterNotFound" = true
  else if args.head? = some "sqs" then
    ∃ e, c.aws args = .error e
      ∧ (strContains e "NonExistentQueue" || strContains e "QueueDoesNotExist") = true
  else if args.head? = some "s3" ∨ args.head? = some "s3api" then
    ∃ e, c.aws args = .error e ∧ strContains e "NoSuchBucket" = true
  else if args.head? = some "opensearch" then
    ∃ e, c.aws args = .error e ∧ strContains e "ResourceNotFoundException" = true
  else if args.head? = some "lambda" then
    ∃ e, c.aws args = .error e ∧ strContains e "ResourceNotFoundException" = true
  else True

/-- One error message carrying every vendor's not-found marker at once. -/
def _gone_msg : String :=
  "NOT_FOUND does not exist: DBInstanceNotFound CacheClusterNotFound NonExistentQueue NoSuchBucket ResourceNotFoundException"

/-- An oracle on which every resource is already absent: every call of every
vendor fails with a message carrying all the not-found markers. -/
def allGone : Cloud := constErrCloud _gone_msg

/-- Inert fixtures for witnesses. -/
def cloud0 : Cloud := constErrCloud ""

def cb0 : CloudB := fun _ => .error ""

def d0 : DockerInspect := fun _ => (0, "running")

def kw0 : Kw := {}

def osv0 : OsEnv := fun _ => none

def pc0 : ProvCloud := { aws := fun _ _ => "", az := fun _ _ => none, gcloud := fun _ => "" }

/-- The spec scenario record `{db: postgres-local, cache: redis-local}`. -/
def _c9_record : ResourceRecord :=
  [("db", database "db" "postgres" "docker" {} osv0 pc0),
   ("cache", cache "redis" "docker" {} pc0)]

/-- The bind-mount-free volume keys one record entry contributes. -/
def _collect_vols (p : String × (EnvDict × Option Svc)) : List String :=
  match p.2.2 with
  | none => []
  | some s => (s.volumes.map Prod.fst).filter
      (fun k => !(strStartsWith k ".") && !(strStartsWith k "/"))

/-- "destroy returned an outcome reporting not-found": the call did not raise,
`destroyed` is false and the message mentions not-found. -/
def _ok_notfound : Except String Outcome → Prop
  | .ok o => o.destroyed = false ∧ strContains o.message "not found" = true
  | .error _ => False

/-- The outcome list of the C1/C9 scenario run. -/
def _docker_ok_outcome (n : String) : Outcome :=
  { destroyed := true, message := "Remove via docker compose down -v",
    resource := some n, provider := some "docker" }

def _c1_res : List (String × Outcome) :=
  [("cache", _docker_ok_outcome "cache"), ("db", _docker_ok_outcome "db")]

/-- "the probe returned rather than raising". -/
def _never_raises : Except String Status → Prop
  | .ok _ => True
  | .error _ => False

/-- "the probe returned an outcome reporting unhealthy, with a message". -/
def _unhealthy_report : Except String Status → Prop
  | .ok s => s.healthy = false ∧ s.message.isSome = true
  | .error _ => False

/-- The local-provider provisioning contract: a present manifest fragment with
an image, the listed default-credential keys, a named (non-bind-mount) volume,
and the connection-info key in the environment fragment. -/
def _local_fragment_ok (r : EnvDict × Option Svc) (connKey : String)
    (credKeys : List String) : Prop :=
  ∃ s, r.2 = some s ∧ s.image ≠ "" ∧
    (∀ k ∈ credKeys, hasKey s.env k = true) ∧
    (∃ v, v ∈ s.volumes.map Prod.fst ∧ strStartsWith v "." = false ∧
      strStartsWith v "/" = false) ∧
    hasKey r.1 connKey = true

/-! ### Helper lemmas -/

theorem strContains_append_right (a b sub : String)
    (h : strContains b sub = true) : strContains (a ++ b) sub = true := by
  simp only [strContains, decide_eq_true_eq] at h ⊢
  obtain ⟨s, t, hst⟩ := h
  refine ⟨a.toList ++ s, t, ?_⟩
  have hab : (a ++ b).toList = a.toList ++ b.toList := rfl
  rw [hab, ← hst]
  simp [List.append_assoc]

/-- Nonemptiness of an appended string with a nonempty left part. -/
theorem _append_left_ne_empty (a b : String) (h : a ≠ "") : a ++ b ≠ "" := by
  intro he
  apply h
  apply String.ext
  have hd : a.toList ++ b.toList = ([] : List Char) := congrArg String.data he
  exact (List.append_eq_nil.mp hd).1

/-- The kind-specific destroyers return fresh outcomes: `resource` and
`provider` are still unset when `destroy` applies `setdefault`. -/
theorem _destroy_database_fresh (name provider : String) (c : Cloud) (kw : Kw)
    (r : Outcome) (h : _destroy_database name provider c kw = .ok r) :
    r.resource = none ∧ r.provider = none := by
  unfold _destroy_database at h
  repeat' first
    | split at h
    | (dsimp only at h)
  all_goals first
    | exact Except.noConfusion h
    | (injection h with h2; subst h2; exact ⟨rfl, rfl⟩)

theorem _destroy_cache_fresh (name provider : String) (c : Cloud) (kw : Kw)
    (r : Outcome) (h : _destroy_cache name provider c kw = .ok r) :
    r.resource = none ∧ r.provider = none := by
  unfold _destroy_cache at h
  repeat' first
    | split at h
    | (dsimp only at h)
  all_goals first
    | exact Except.noConfusion h
    | (injection h with h2; subst h2; exact ⟨rfl, rfl⟩)

theorem _destroy_queue_fresh (name provider : String) (c : Cloud) (kw : Kw)
    (r : Outcome) (h : _destroy_queue name provider c kw = .ok r) :
    r.resource = none ∧ r.provider = none := by
  unfold _destroy_queue at h
  repeat' first
    | split at h
    | (dsimp only at h)
  all_goals first
    | exact Except.noConfusion h
    | (injection h with h2; subst h2; exact ⟨rfl, rfl⟩)

theorem _destroy_bucket_fresh (name provider : String) (c : Cloud) (kw : Kw)
    (r : Outcome) (h : _destroy_bucket name provider c kw = .ok r) :
    r.resource = none ∧ r.provider = none := by
  unfold _destroy_bucket at h
  repeat' first
    | split at h
    | (dsimp only at h)
  all_goals first
    | exact Except.noConfusion h
    | (injection h with h2; subst h2; exact ⟨rfl, rfl⟩)

theorem _destroy_llm_fresh (name provider : String) (c : Cloud) (kw : Kw)
    (r : Outcome) (h : _destroy_llm name provider c kw = .ok r) :
    r.resource = none ∧ r.provider = none := by
  unfold _destroy_llm at h
  repeat' first
    | split at h
    | (dsimp only at h)
  all_goals first
    | exact Except.noConfusion h
    | (injection h with h2; subst h2; exact ⟨rfl, rfl⟩)

theorem _destroy_search_fresh (name provider : String) (c : Cloud) (kw : Kw)
    (r : Outcome) (h : _destroy_search name provider c kw = .ok r) :
    r.resource = none ∧ r.provider = none := by
  unfold _destroy_search at h
  repeat' first
    | split at h
    | (dsimp only at h)
  all_goals first
    | exact Except.noConfusion h
    | (injection h with h2; subst h2; exact ⟨rfl, rfl⟩)

theorem _destroy_function_fresh (name provider : String) (c : Cloud) (kw : Kw)
    (r : Outcome) (h : _destroy_function name provider c kw = .ok r) :
    r.resource = none ∧ r.provider = none := by
  unfold _destroy_function at h
  repeat' first
    | split at h
    | (dsimp only at h)
  all_goals first
    | exact Except.noConfusion h
    | (injection h with h2; subst h2; exact ⟨rfl, rfl⟩)

/-- Whatever the dispatcher table selects returns a fresh outcome. -/
theorem _dispatch_fresh (rt : String)
    (f : String → String → Cloud → Kw → Except String Outcome)
    (hd : _dispatch rt = some f) (name provider : String) (c : Cloud) (kw : Kw)
    (r : Outcome) (hf : f name provider c kw = .ok r) :
    r.resource = none ∧ r.provider = none := by
  unfold _dispatch at hd
  split at hd
  all_goals first
    | exact Option.noConfusion hd
    | (injection hd with hd2; subst hd2;
       first
         | exact _destroy_database_fresh name provider c kw r hf
         | exact _destroy_cache_fresh name provider c kw r hf
         | exact _destroy_queue_fresh name provider c kw r hf
         | exact _destroy_bucket_fresh name provider c kw r hf
         | exact _destroy_llm_fresh name provider c kw r hf
         | exact _destroy_search_fresh name provider c kw r hf
         | exact _destroy_function_fresh name provider c kw r hf)

/-- When the teardown loop completes, it records exactly one outcome per
visited entry, keyed by name, in visit order. -/
theorem _destroy_each_keys (provider : String) (c : Cloud) (kw : Kw) :
    ∀ (l : List (String × (EnvDict × Option Svc)))
      (res : List (String × Outcome)),
      _destroy_each provider c kw l = .ok res →
      res.map Prod.fst = l.map Prod.fst := by
  intro l
  induction l with
  | nil =>
      intro res h
      injection h with h2
      subst h2
      rfl
  | cons p tl ih =>
      intro res h
      obtain ⟨name, fn⟩ := p
      unfold _destroy_each at h
      rcases hdes : destroy (_infer_resource_type fn.1) name provider c kw with e | r
      · rw [hdes] at h; exact Except.noConfusion h
      · rw [hdes] at h
        rcases hrest : _destroy_each provider c kw tl with e | rs
        · rw [hrest] at h; exact Except.noConfusion h
        · rw [hrest] at h
          injection h with h2
          subst h2
          simpa using ih rs hrest

/-- If every prefix entry destroys cleanly and then one entry's destroy
raises, the teardown loop raises that same error, whatever the remaining
entries are: they are never visited. -/
theorem _destroy_each_aborts (provider : String) (c : Cloud) (kw : Kw)
    (x : String) (fnx : EnvDict × Option Svc) (e : String)
    (hx : destroy (_infer_resource_type fnx.1) x provider c kw = .error e) :
    ∀ (l₁ l₂ : List (String × (EnvDict × Option Svc)))
      (ra : List (String × Outcome)),
      _destroy_each provider c kw l₁ = .ok ra →
      _destroy_each provider c kw (l₁ ++ (x, fnx) :: l₂) = .error e := by
  intro l₁
  induction l₁ with
  | nil =>
      intro l₂ ra _
      show _destroy_each provider c kw ((x, fnx) :: l₂) = .error e
      unfold _destroy_each
      rw [hx]
  | cons p tl ih =>
      intro l₂ ra h
      obtain ⟨name, fn⟩ := p
      unfold _destroy_each at h
      rcases hdes : destroy (_infer_resource_type fn.1) name provider c kw with er | r
      · rw [hdes] at h; exact Except.noConfusion h
      · rw [hdes] at h
        rcases hrest : _destroy_each provider c kw tl with er | rs
        · rw [hrest] at h; exact Except.noConfusion h
        · rw [List.cons_append]
          simp only [_destroy_each, hdes, ih l₂ rs hrest]

/-- If each entry of a list destroys to an outcome satisfying `P`, the
teardown loop completes, keys its results in visit order, and every recorded
outcome satisfies `P`. -/
theorem _destroy_each_all (P : Outcome → Prop) (provider : String) (c : Cloud)
    (kw : Kw) :
    ∀ (l : List (String × (EnvDict × Option Svc))),
      (∀ p ∈ l, ∃ o, destroy (_infer_resource_type p.2.1) p.1 provider c kw = .ok o ∧ P o) →
      ∃ res, _destroy_each provider c kw l = .ok res ∧
        res.map Prod.fst = l.map Prod.fst ∧ ∀ q ∈ res, P q.2 := by
  intro l
  induction l with
  | nil =>
      intro _
      exact ⟨[], rfl, rfl, by intro q hq; cases hq⟩
  | cons p tl ih =>
      intro hall
      obtain ⟨name, fn⟩ := p
      obtain ⟨o, ho, hPo⟩ := hall (name, fn) (List.mem_cons_self _ _)
      obtain ⟨rs, hrs, hkeys, hPs⟩ := ih (fun q hq => hall q (List.mem_cons_of_mem _ hq))
      refine ⟨(name, o) :: rs, ?_, ?_, ?_⟩
      · unfold _destroy_each
        rw [ho, hrs]
      · simpa using hkeys
      · intro q hq
        rcases List.mem_cons.mp hq with hq1 | hq2
        · subst hq1; exact hPo
        · exact hPs q hq2

/-- The volume accumulator of the `stack` loop collects exactly the
bind-mount-free volume keys of the visited manifest fragments. -/
theorem _stack_foldl_vols :
    ∀ (l : ResourceRecord) (acc : EnvDict × Compose × List String),
      (l.foldl _stack_step acc).2.2 = acc.2.2 ++ l.flatMap _collect_vols := by
  intro l
  induction l with
  | nil => intro acc; simp
  | cons p tl ih =>
      intro acc
      obtain ⟨name, fn, svc?⟩ := p
      rw [List.foldl_cons, ih]
      cases svc? with
      | none => simp [_stack_step, _collect_vols]
      | some s => simp [_stack_step, _collect_vols]

/-- Every not-found outcome message of the destroyers ends in " not found". -/
theorem _tail_not_found (a : String) :
    strContains (a ++ " not found") "not found" = true :=
  strContains_append_right a " not found" "not found" (by decide)

/-- The `list(set(volumes))` result of `stack`, unfolded to the raw collection
of bind-mount-free volume keys. -/
theorem _stack_vols_eq (resources : ResourceRecord) :
    (stack resources).2.2 = (resources.flatMap _collect_vols).dedup := by
  show ((resources.foldl _stack_step ([], {}, [])).2.2).dedup
      = (resources.flatMap _collect_vols).dedup
  rw [_stack_foldl_vols resources ([], {}, [])]
  rfl

/-! ### Claims -/

/-- C1: for every ResourceRecord, `destroy_stack` visits the record's names in
exactly the reverse of their insertion order, producing one DestructionOutcome
per name (stated on every completed run: the outcome list is keyed by the
record's names reversed, one entry per record entry). -/
theorem c1_destroy_stack_reverse_order (resources : ResourceRecord)
    (provider : String) (c : Cloud) (kw : Kw) (res : List (String × Outcome))
    (h : destroy_stack resources provider c kw = .ok res) :
    res.map Prod.fst = (resources.map Prod.fst).reverse ∧
    res.length = resources.length := by
  have hk := _destroy_each_keys provider c kw resources.reverse res h
  constructor
  · rw [hk, List.map_reverse]
  · have hlen := congrArg List.length hk
    simpa using hlen

/-- Witness for C1 at the concrete two-entry record. -/
theorem c1_destroy_stack_reverse_order_witness :
    destroy_stack _c9_record "docker" cloud0 kw0 = .ok _c1_res ∧
    (_c1_res.map Prod.fst = (_c9_record.map Prod.fst).reverse ∧
     _c1_res.length = _c9_record.length) :=
  ⟨rfl, c1_destroy_stack_reverse_order _c9_record "docker" cloud0 kw0 _c1_res rfl⟩

/-- The classifier's bucket test, `any(k in env_dict for k in [...])`,
as the explicit disjunction of the spec's predicate list. -/
theorem _bucket_any (env : EnvDict) :
    (["S3_ENDPOINT", "S3_BUCKET", "AZURE_STORAGE_CONNECTION_STRING",
        "GCS_BUCKET"] : List String).any (hasKey env) =
      (hasKey env "S3_ENDPOINT" || hasKey env "S3_BUCKET"
        || hasKey env "AZURE_STORAGE_CONNECTION_STRING"
        || hasKey env "GCS_BUCKET") := by
  simp [List.any_cons, List.any_nil, Bool.or_assoc]

/-- C2: the resource-kind classifier is the first-match-wins evaluation of its
key-presence predicates in the fixed total order database > cache > queue >
bucket > llm > search > function > unknown; in particular any fragment with
both a database-url key and a queue-url key classifies as `database`. -/
theorem c2_classifier_precedence (env : EnvDict) :
    _infer_resource_type env = firstMatch _spec_predicates env ∧
    (hasKey env "DATABASE_URL" = true →
      (hasKey env "QUEUE_URL" = true ∨ hasKey env "QUEUE_TOPIC" = true) →
      _infer_resource_type env = "database") := by
  constructor
  · simp only [_infer_resource_type, firstMatch, _spec_predicates, _bucket_any]
  · intro h1 _
    simp [_infer_resource_type, h1]

/-- Witness for C2 at a fragment holding both a database and a queue key. -/
theorem c2_classifier_precedence_witness :
    _infer_resource_type [("DATABASE_URL", "u"), ("QUEUE_URL", "q")] = "database" :=
  (c2_classifier_precedence [("DATABASE_URL", "u"), ("QUEUE_URL", "q")]).2
    (by decide) (Or.inl (by decide))

/-- C10: every DestructionOutcome returned by `destroy` carries
`resource = name` and `provider = provider`, whichever kind-specific delete
operation produced it and however it ended. -/
theorem c10_outcome_tagged (resource_type name provider : String) (c : Cloud)
    (kw : Kw) (o : Outcome)
    (h : destroy resource_type name provider c kw = .ok o) :
    o.resource = some name ∧ o.provider = some provider := by
  unfold destroy at h
  rcases hd : _dispatch resource_type with _ | f
  · rw [hd] at h
    dsimp only at h
    injection h with h2
    subst h2
    exact ⟨rfl, rfl⟩
  · rw [hd] at h
    dsimp only at h
    rcases hf : f name provider c kw with e | r
    · rw [hf] at h; exact Except.noConfusion h
    · rw [hf] at h
      injection h with h2
      subst h2
      obtain ⟨h1, h2⟩ := _dispatch_fresh resource_type f hd name provider c kw r hf
      simp [h1, h2]

/-- Witness for C10 at a concrete docker database teardown. -/
theorem c10_outcome_tagged_witness :
    destroy "database" "db" "docker" cloud0 kw0 = .ok (_docker_ok_outcome "db") ∧
    ((_docker_ok_outcome "db").resource = some "db" ∧
     (_docker_ok_outcome "db").provider = some "docker") :=
  ⟨rfl, c10_outcome_tagged "database" "db" "docker" cloud0 kw0
    (_docker_ok_outcome "db") rfl⟩

/-- C3: for every (kind, provider) pair whose destroy issues a vendor delete
call, if the provider call raises with the vendor's fixed not-found substring
in its message, `destroy` returns (does not raise) an outcome with
`destroyed: false` and a not-found message. -/
theorem c3_notfound_normalized (p : String × String) (name : String) (kw : Kw)
    (e : String) (hp : p ∈ _delete_call_pairs)
    (hm : _not_found_marker p.1 p.2 e = true) :
    _ok_notfound (destroy p.1 name p.2 (constErrCloud e) kw) := by
  fin_cases hp <;>
  · simp only [_not_found_marker] at hm
    simp only [String.reduceEq, if_true, if_false, reduceIte] at hm
    simp [destroy, _dispatch, _destroy_database, _destroy_cache, _destroy_queue,
      _destroy_bucket, _destroy_llm, _destroy_search, _destroy_function,
      constErrCloud, Except.bind, _ok_notfound, hm]
    exact _tail_not_found _

/-- Witness for C3: an RDS delete raising `DBInstanceNotFound`. -/
theorem c3_notfound_normalized_witness :
    _ok_notfound (destroy "database" "db" "aws"
      (constErrCloud "DBInstanceNotFound: db") kw0) :=
  c3_notfound_normalized ("database", "aws") "db" kw0 "DBInstanceNotFound: db"
    (by decide) (by decide)

/-- On an oracle where every aws call reports not-found, `destroy` under aws
yields a not-found outcome for each kind that issues a delete call. -/
theorem _destroy_gone_aws (rt name : String) (c : Cloud) (kw : Kw)
    (hrt : rt ∈ (["database", "cache", "queue", "bucket", "search",
      "function"] : List String))
    (hgone : ∀ args, _aws_call_gone c args) :
    ∃ o, destroy rt name "aws" c kw = .ok o ∧ o.destroyed = false ∧
      strContains o.message "not found" = true := by
  have hok : _ok_notfound (destroy rt name "aws" c kw) := by
    fin_cases hrt
    · obtain ⟨e, he, hm⟩ := by
        have h := hgone ["rds", "delete-db-instance",
          "--db-instance-identifier", name, "--skip-final-snapshot",
          "--delete-automated-backups"]
        simpa [_aws_call_gone] using h
      simp [destroy, _dispatch, _destroy_database, he, hm, _ok_notfound]
      exact _tail_not_found _
    · obtain ⟨e, he, hm⟩ := by
        have h := hgone ["elasticache", "delete-cache-cluster",
          "--cache-cluster-id", name]
        simpa [_aws_call_gone] using h
      simp [destroy, _dispatch, _destroy_cache, he, hm, _ok_notfound]
      exact _tail_not_found _
    · obtain ⟨e, he, hm⟩ := by
        have h := hgone ["sqs", "get-queue-url", "--queue-name", name]
        simpa [_aws_call_gone] using h
      simp [destroy, _dispatch, _destroy_queue, Except.bind, he, hm, _ok_notfound]
      exact _tail_not_found _
    · obtain ⟨e, he, hm⟩ := by
        have h := hgone ["s3", "rm", "s3://" ++ name, "--recursive"]
        simpa [_aws_call_gone] using h
      simp [destroy, _dispatch, _destroy_bucket, Except.bind, he, hm, _ok_notfound]
      exact _tail_not_found _
    · obtain ⟨e, he, hm⟩ := by
        have h := hgone ["opensearch", "delete-domain", "--domain-name", name]
        simpa [_aws_call_gone] using h
      simp [destroy, _dispatch, _destroy_search, he, hm, _ok_notfound]
      exact _tail_not_found _
    · obtain ⟨e, he, hm⟩ := by
        have h := hgone ["lambda", "delete-function", "--function-name", name]
        simpa [_aws_call_gone] using h
      simp [destroy, _dispatch, _destroy_function, he, hm, _ok_notfound]
      exact _tail_not_found _
  rcases hx : destroy rt name "aws" c kw with er | o
  · rw [hx] at hok; exact absurd hok (by simp [_ok_notfound])
  · rw [hx] at hok; exact ⟨o, rfl, hok⟩

/-- C4 as stated is falsified below (`llm` under aws reports success with no
delete call); amended: restricted to records whose entries classify to kinds
that issue aws delete calls, a teardown against an all-absent provider yields
`destroyed: false` with a not-found message for every entry and never raises. -/
theorem c4_idempotent_teardown_amended (resources : ResourceRecord) (c : Cloud)
    (kw : Kw)
    (hkinds : ∀ p ∈ resources, _infer_resource_type p.2.1 ∈
      (["database", "cache", "queue", "bucket", "search", "function"] : List String))
    (hgone : ∀ args, _aws_call_gone c args) :
    ∃ res, destroy_stack resources "aws" c kw = .ok res ∧
      res.map Prod.fst = (resources.map Prod.fst).reverse ∧
      ∀ q ∈ res, q.2.destroyed = false ∧
        strContains q.2.message "not found" = true := by
  obtain ⟨res, hres, hkeys, hall⟩ :=
    _destroy_each_all
      (fun o => o.destroyed = false ∧ strContains o.message "not found" = true)
      "aws" c kw resources.reverse
      (fun p hp =>
        _destroy_gone_aws (_infer_resource_type p.2.1) p.1 c kw
          (hkinds p (List.mem_reverse.mp hp)) hgone)
  refine ⟨res, hres, ?_, hall⟩
  rw [hkeys, List.map_reverse]

set_option maxRecDepth 40000 in
/-- Every aws call of the all-absent oracle satisfies the not-found contract. -/
theorem _allGone_gone (args : List String) : _aws_call_gone allGone args := by
  unfold _aws_call_gone
  split_ifs <;> first
    | trivial
    | exact ⟨_gone_msg, rfl, by decide⟩

/-- Witness for C4 (amended) at a one-database record. -/
theorem c4_idempotent_teardown_amended_witness :
    ∃ res, destroy_stack [("db", ([("DATABASE_URL", "u")], none))] "aws"
        allGone kw0 = .ok res ∧
      res.map Prod.fst =
        (([("db", (([("DATABASE_URL", "u")] : EnvDict), (none : Option Svc)))]
          : ResourceRecord).map Prod.fst).reverse ∧
      ∀ q ∈ res, q.2.destroyed = false ∧
        strContains q.2.message "not found" = true :=
  c4_idempotent_teardown_amended [("db", ([("DATABASE_URL", "u")], none))]
    allGone kw0 (by decide) _allGone_gone

/-- C4 counterexample: a record whose one resource is an `llm` under aws.
No delete call is ever issued for it (so, vacuously, every delete call fails
with the vendor's not-found error — the oracle here fails every call with
every vendor's not-found marker), yet the second teardown reports
`destroyed: true` with no not-found message, contradicting the claim's
"destroyed:false and a not-found message for every entry". -/
theorem c4_idempotent_teardown_counterexample :
    destroy_stack [("llm0", ([("LLM_MODEL", "m")], none))] "aws" allGone kw0 =
      .ok [("llm0", { destroyed := true, message := "No teardown needed for Bedrock",
                      resource := some "llm0", provider := some "aws" })] ∧
    ¬ ((true : Bool) = false) := ⟨rfl, by decide⟩

/-- C6: during a batch teardown, a provider error that is not a recognized
not-found error propagates unmodified out of `destroy_stack`, and the
resources inserted before the failing one (which would be visited after it)
contribute nothing: for every such remainder `B` the run is the same
unmodified error, with no outcome list at all. -/
theorem c6_error_aborts_batch (B A : ResourceRecord) (x : String)
    (fnx : EnvDict × Option Svc) (provider : String) (c : Cloud) (kw : Kw)
    (e : String) (ra : List (String × Outcome))
    (hA : _destroy_each provider c kw A.reverse = .ok ra)
    (hx : destroy (_infer_resource_type fnx.1) x provider c kw = .error e) :
    destroy_stack (B ++ (x, fnx) :: A) provider c kw = .error e := by
  unfold destroy_stack
  have hrev : (B ++ (x, fnx) :: A).reverse
      = A.reverse ++ (x, fnx) :: B.reverse := by
    simp
  rw [hrev]
  exact _destroy_each_aborts provider c kw x fnx e hx A.reverse B.reverse ra hA

/-- Witness for C6: an aws database delete raising an unrecognized error
aborts the teardown of the remaining (earlier-provisioned) cache. -/
theorem c6_error_aborts_batch_witness :
    _destroy_each "aws" (constErrCloud "boom") kw0
        (([] : ResourceRecord).reverse) = .ok [] ∧
    destroy (_infer_resource_type ([("DATABASE_URL", "u")] : EnvDict)) "x" "aws"
        (constErrCloud "boom") kw0 = .error "boom" ∧
    destroy_stack ([("y", ([("REDIS_URL", "r")], none))] ++
        ("x", (([("DATABASE_URL", "u")] : EnvDict), (none : Option Svc))) :: [])
        "aws" (constErrCloud "boom") kw0 = .error "boom" :=
  ⟨rfl, rfl,
    c6_error_aborts_batch [("y", ([("REDIS_URL", "r")], none))] [] "x"
      ([("DATABASE_URL", "u")], none) "aws" (constErrCloud "boom") kw0 "boom"
      [] rfl rfl⟩

/-- C7: the health prober never raises, for any kind, name, provider and
oracle; and when every probe call raises (e.g. not-found), the report is
`healthy: false` with a descriptive message. -/
theorem c7_status_never_raises (resource_type name provider : String)
    (c : Cloud) (cb : CloudB) (d : DockerInspect) (kw : Kw) (e : String) :
    _never_raises (status resource_type name provider c cb d kw) ∧
    ((provider = "aws" ∨ provider = "azure") →
      _unhealthy_report (status resource_type name provider (constErrCloud e)
        (fun _ => .error e) d kw)) := by
  constructor
  · unfold status
    split_ifs
    · trivial
    · cases h : _status_aws_try resource_type name c cb with
      | error er => simp [h, _never_raises]
      | ok s? => cases s? <;> simp [h, _never_raises]
    · cases h : _status_azure_try resource_type name c kw with
      | error er => simp [h, _never_raises]
      | ok s? => cases s? <;> simp [h, _never_raises]
    · trivial
  · intro hp
    rcases hp with h | h <;> subst h
    · have htry : _status_aws_try resource_type name (constErrCloud e)
          (fun _ => .error e) = .error e ∨
          _status_aws_try resource_type name (constErrCloud e)
            (fun _ => .error e) = .ok none := by
        unfold _status_aws_try
        split_ifs <;> first | exact Or.inl rfl | exact Or.inr rfl
      rcases htry with h2 | h2 <;> simp [status, h2, _unhealthy_report]
    · have htry : _status_azure_try resource_type name (constErrCloud e) kw
          = .error e ∨
          _status_azure_try resource_type name (constErrCloud e) kw
            = .ok none := by
        unfold _status_azure_try
        split_ifs <;> first | exact Or.inl rfl | exact Or.inr rfl
      rcases htry with h2 | h2 <;> simp [status, h2, _unhealthy_report]

/-- Witness for C7: an aws database probe whose describe call raises. -/
theorem c7_status_never_raises_witness :
    _unhealthy_report (status "database" "db" "aws" (constErrCloud "oops")
      (fun _ => .error "oops") d0 kw0) :=
  (c7_status_never_raises "database" "db" "aws" cloud0 cb0 d0 kw0 "oops").2
    (Or.inl rfl)

/-- C5: the stack composer's volume set holds exactly the volume keys of the
returned manifest fragments that do not begin with a path-like (bind-mount)
prefix, deduplicated across services. -/
theorem c5_stack_volume_set (resources : ResourceRecord) :
    (stack resources).2.2.Nodup ∧
    (∀ v, v ∈ (stack resources).2.2 ↔
      ∃ p, p ∈ resources ∧ ∃ s, p.2.2 = some s ∧
        v ∈ s.volumes.map Prod.fst ∧
        strStartsWith v "." = false ∧ strStartsWith v "/" = false) := by
  constructor
  · rw [_stack_vols_eq]; exact List.nodup_dedup _
  · intro v
    rw [_stack_vols_eq, List.mem_dedup, List.mem_flatMap]
    constructor
    · rintro ⟨p, hp, hv⟩
      refine ⟨p, hp, ?_⟩
      rcases p with ⟨n, env, svc?⟩
      cases svc? with
      | none => simp [_collect_vols] at hv
      | some s =>
          simp only [_collect_vols] at hv
          rw [List.mem_filter] at hv
          obtain ⟨h1, h2⟩ :
              strStartsWith v "." = false ∧ strStartsWith v "/" = false := by
            have hpred := hv.2
            simp only [Bool.and_eq_true, Bool.not_eq_true'] at hpred
            exact hpred
          exact ⟨s, rfl, hv.1, h1, h2⟩
    · rintro ⟨p, hp, s, hs, hmem, h1, h2⟩
      refine ⟨p, hp, ?_⟩
      rcases p with ⟨n, env, svc?⟩
      simp only at hs
      subst hs
      simp only [_collect_vols]
      rw [List.mem_filter]
      exact ⟨hmem, by simp [h1, h2]⟩

/-- Witness for C5 at the concrete two-service record. -/
theorem c5_stack_volume_set_witness : (stack _c9_record).2.2.Nodup :=
  (c5_stack_volume_set _c9_record).1

/-- C8 as stated is falsified below (`function` has no docker branch);
amended: every other core kind (database, cache, queue, bucket, llm, search)
provisioned under the local-container provider returns a present manifest
fragment with an image, default credentials where applicable and a named
volume, plus synchronous connection info in the environment fragment. -/
theorem c8_local_provisioning_amended (name : String) (kw : Kw) (osenv : OsEnv)
    (c : ProvCloud) :
    _local_fragment_ok (database name "postgres" "docker" kw osenv c)
      "DATABASE_URL" ["POSTGRES_PASSWORD", "POSTGRES_DB"] ∧
    _local_fragment_ok (cache name "docker" kw c) "REDIS_URL" [] ∧
    _local_fragment_ok (queue name "docker" kw c) "QUEUE_URL"
      ["RABBITMQ_DEFAULT_USER", "RABBITMQ_DEFAULT_PASS"] ∧
    _local_fragment_ok (bucket name "docker" kw c) "S3_ENDPOINT"
      ["MINIO_ROOT_USER", "MINIO_ROOT_PASSWORD"] ∧
    _local_fragment_ok (llm name "docker" kw osenv c) "LLM_ENDPOINT" [] ∧
    _local_fragment_ok (search name "docker" kw c) "SEARCH_URL" [] := by
  refine ⟨?_, ?_, ?_, ?_, ?_, ?_⟩
  · -- database
    refine ⟨_, rfl, ?_, ?_, ?_, ?_⟩
    · exact _append_left_ne_empty "postgres:" _ (by decide)
    · intro k hk
      fin_cases hk <;> rfl
    · exact ⟨"pgdata", by simp, rfl, rfl⟩
    · rfl
  · -- cache
    refine ⟨_, rfl, ?_, ?_, ?_, ?_⟩
    · show ("redis:7-alpine" : String) ≠ ""
      decide
    · intro k hk
      cases hk
    · exact ⟨"redis-data", by simp, rfl, rfl⟩
    · rfl
  · -- queue
    refine ⟨_, rfl, ?_, ?_, ?_, ?_⟩
    · show ("rabbitmq:3-management" : String) ≠ ""
      decide
    · intro k hk
      fin_cases hk <;> rfl
    · exact ⟨"rabbitmq-data", by simp, rfl, rfl⟩
    · rfl
  · -- bucket
    refine ⟨_, rfl, ?_, ?_, ?_, ?_⟩
    · show ("minio/minio:latest" : String) ≠ ""
      decide
    · intro k hk
      fin_cases hk <;> rfl
    · exact ⟨"minio-data", by simp, rfl, rfl⟩
    · rfl
  · -- llm (the docker service gains a deploy block when gpu is requested)
    cases hg : kw.gpu with
    | false =>
        have hsvc : (llm name "docker" kw osenv c).2 = some
            { image := "ollama/ollama:latest", ports := [("11434", "11434")],
              volumes := [("ollama-data", "/root/.ollama")],
              restart := "unless-stopped" } := by
          simp [llm, hg]
        refine ⟨_, hsvc, ?_, ?_, ?_, ?_⟩
        · show ("ollama/ollama:latest" : String) ≠ ""
          decide
        · intro k hk
          cases hk
        · exact ⟨"ollama-data", by simp, rfl, rfl⟩
        · rfl
    | true =>
        have hsvc : (llm name "docker" kw osenv c).2 = some
            { image := "ollama/ollama:latest", ports := [("11434", "11434")],
              volumes := [("ollama-data", "/root/.ollama")],
              restart := "unless-stopped", deploy := true } := by
          simp [llm, hg]
        refine ⟨_, hsvc, ?_, ?_, ?_, ?_⟩
        · show ("ollama/ollama:latest" : String) ≠ ""
          decide
        · intro k hk
          cases hk
        · exact ⟨"ollama-data", by simp, rfl, rfl⟩
        · rfl
  · -- search
    refine ⟨_, rfl, ?_, ?_, ?_, ?_⟩
    · show ("elasticsearch:8.12.0" : String) ≠ ""
      decide
    · intro k hk
      cases hk
    · exact ⟨"es-data", by simp, rfl, rfl⟩
    · rfl

/-- Witness for C8 (amended) at the default local cache invocation. -/
theorem c8_local_provisioning_amended_witness :
    _local_fragment_ok (cache "redis" "docker" kw0 pc0) "REDIS_URL" [] :=
  (c8_local_provisioning_amended "redis" kw0 osv0 pc0).2.1

/-- C8 counterexample: the `function` kind, invoked under the local-container
provider, returns an empty environment fragment and an ABSENT manifest
fragment (the source has no docker branch for serverless functions),
contradicting "for every resource kind ... a present ManifestFragment". -/
theorem c8_local_provisioning_counterexample :
    (function "f" "python3.12" "main.handler" "docker" kw0 osv0 pc0).2 = none ∧
    (function "f" "python3.12" "main.handler" "docker" kw0 osv0 pc0).1 = [] :=
  ⟨rfl, rfl⟩

/-- C9: the scenario record {db: local postgres, cache: local redis}: the
composer's merged environment holds DATABASE_URL and REDIS_URL, exactly two
manifest fragments are produced, the volume set is {pgdata, redis-data}, and
destroy_stack destroys cache then db, both `destroyed: true`. -/
theorem c9_compose_destroy_scenario (c : Cloud) (kw : Kw) :
    hasKey (stack _c9_record).1 "DATABASE_URL" = true ∧
    hasKey (stack _c9_record).1 "REDIS_URL" = true ∧
    (stack _c9_record).2.1.services.length = 2 ∧
    (∀ v, v ∈ (stack _c9_record).2.2 ↔ (v = "pgdata" ∨ v = "redis-data")) ∧
    destroy_stack _c9_record "docker" c kw = .ok _c1_res := by
  refine ⟨rfl, rfl, rfl, ?_, rfl⟩
  intro v
  rw [show (stack _c9_record).2.2 = ["pgdata", "redis-data"] from rfl]
  simp

/-- Witness for C9 at a concrete oracle. -/
theorem c9_compose_destroy_scenario_witness :
    destroy_stack _c9_record "docker" cloud0 kw0 = .ok _c1_res :=
  (c9_compose_destroy_scenario cloud0 kw0).2.2.2.2

end FastOps
